import Mathlib

/-!
Verification of the daemon resilience layer: liveness monitor
(`src/common/daemon-monitor.ts`), transport (`AxiosTransport`) and RPC
client (`src/rpc/client.ts`), shallowly embedded in Lean.
-/

set_option linter.unusedVariables false
set_option maxRecDepth 4096

/-! ## Liveness monitor (`DaemonMonitor`) -/

/-- Trimmed content of the lock file as the code classifies it:
`content` empty after trim, `parseInt` yielding `NaN`, or a parsed PID. -/
inductive FileContent where
  | empty
  | nonNumeric
  | pid (p : Nat)
deriving DecidableEq, Repr

/-- Outcome of `process.kill(pid, 0)`: success, `ESRCH` (no such process),
or a throw with any other code (for example `EPERM`). -/
inductive ProbeResult where
  | ok
  | esrch
  | otherErr
deriving DecidableEq, Repr

/-- Raw observation a single poll makes of the lock descriptor:
`fs.existsSync` false, a read that throws, or the file content
together with the probe outcome (the probe is consulted only when
the content is a PID). -/
inductive Obs where
  | absent
  | readErr
  | present (c : FileContent) (probe : ProbeResult)
deriving DecidableEq, Repr

/-- `DaemonMonitor.checkDaemonAlive`: resolves one observation to a
boolean, given the currently stored `isAlive` (`undefined` is `none`).
An empty file returns `this.isAlive ?? false`; a read error or absent
file returns `false`; a PID returns `false` exactly on `ESRCH`. -/
def checkDaemonAlive (isAlive : Option Bool) : Obs → Bool
  | .absent => false
  | .readErr => false
  | .present .empty _ => isAlive.getD false
  | .present .nonNumeric _ => false
  | .present (.pid _) .ok => true
  | .present (.pid _) .esrch => false
  | .present (.pid _) .otherErr => true

/-- The two injected callbacks of the monitor. -/
inductive MonEvent where
  | onAlive
  | onDown
deriving DecidableEq, Repr

/-- The body of one completed poll (the `check` closure past its guard,
with callbacks that resolve): compares the resolved observation with the
stored state (`this.isAlive !== currentlyAlive`), stores the new state
and fires the matching callback on a difference. -/
def pollStep (isAlive : Option Bool) (o : Obs) : Option Bool × List MonEvent :=
  let currentlyAlive := checkDaemonAlive isAlive o
  if isAlive ≠ some currentlyAlive then
    (some currentlyAlive, [if currentlyAlive then MonEvent.onAlive else MonEvent.onDown])
  else
    (isAlive, [])

/-- A sequence of completed polls, threading the stored state and
collecting the fired callbacks in order. -/
def pollRun (isAlive : Option Bool) : List Obs → Option Bool × List MonEvent
  | [] => (isAlive, [])
  | o :: rest =>
    let s1 := (pollStep isAlive o).1
    let r := pollRun s1 rest
    (r.1, (pollStep isAlive o).2 ++ r.2)

/-- The sequence of stored states after each completed poll. -/
def stateTrace (isAlive : Option Bool) : List Obs → List (Option Bool)
  | [] => []
  | o :: rest =>
    let s1 := (pollStep isAlive o).1
    s1 :: stateTrace s1 rest

/-- Number of transitions of the stored state into `some b` along a trace
(a step counts when the previous state differs from `some b` and the next
state equals `some b`). -/
def countEdges (b : Bool) : Option Bool → List (Option Bool) → Nat
  | _, [] => 0
  | prev, next :: rest =>
    (if prev ≠ some b ∧ next = some b then 1 else 0) + countEdges b next rest

/-- The callback fired on an edge into state `b`. -/
def evOf (b : Bool) : MonEvent :=
  if b then MonEvent.onAlive else MonEvent.onDown

/-- Monitor state as interleaving matters: stored liveness plus the
in-flight poll. `inFlight = some o` models `isChecking = true` with the
outstanding poll destined to observe `o`. -/
structure MonState where
  isAlive : Option Bool
  inFlight : Option Obs
deriving DecidableEq, Repr

/-- A scheduler action: the interval timer fires (the poll it would start
will observe `o`), or the outstanding poll's awaited I/O completes. -/
inductive MonAction where
  | tick (o : Obs)
  | finish
deriving DecidableEq, Repr

/-- One scheduler step of the monitor. A tick finding `isChecking` set
returns at once (`if (this.isChecking) return`); otherwise it begins a
poll. A completion runs the comparison and callback logic of `check` and
clears the guard. -/
def monStep (s : MonState) : MonAction → MonState × List MonEvent
  | .tick o =>
    if s.inFlight.isSome then (s, [])
    else ({ s with inFlight := some o }, [])
  | .finish =>
    match s.inFlight with
    | none => (s, [])
    | some o =>
      let r := pollStep s.isAlive o
      ({ isAlive := r.1, inFlight := none }, r.2)

/-- Run a sequence of scheduler actions, collecting fired callbacks. -/
def monRun (s : MonState) : List MonAction → MonState × List MonEvent
  | [] => (s, [])
  | a :: rest =>
    let r1 := monStep s a
    let r2 := monRun r1.1 rest
    (r2.1, r1.2 ++ r2.2)

/-- State of the `check` closure with the guard explicit. -/
structure CheckState where
  isAlive : Option Bool
  isChecking : Bool
deriving DecidableEq, Repr

/-- One invocation of `check` when the injected callback may reject:
`cbResult ev` is the outcome of awaiting the callback `ev`. The source
wraps the body in `try ... finally { this.isChecking = false }` with no
`catch`, so the new state is stored and the guard released in every
case, while a callback rejection becomes the result of the returned
promise. -/
def checkRun (s : CheckState) (o : Obs) (cbResult : MonEvent → Except String Unit) :
    CheckState × List MonEvent × Except String Unit :=
  if s.isChecking then (s, [], .ok ())
  else
    let currentlyAlive := checkDaemonAlive s.isAlive o
    if s.isAlive ≠ some currentlyAlive then
      let ev := if currentlyAlive then MonEvent.onAlive else MonEvent.onDown
      ({ isAlive := some currentlyAlive, isChecking := false }, [ev], cbResult ev)
    else
      ({ isAlive := s.isAlive, isChecking := false }, [], .ok ())

/-! ## RPC protocol types (`src/rpc/protocol.ts`) -/

/-- JSON-RPC id: `string | number`. -/
inductive RpcId where
  | str (s : String)
  | num (n : Int)
deriving DecidableEq, Repr

/-- `RpcRequest`. `params` is opaque (`any` in the source). -/
structure RpcRequest where
  jsonrpc : String
  id : RpcId
  method : String
  params : Option String
deriving DecidableEq, Repr

/-- Codes of `RpcErrorCode` used by the transport. -/
def RpcErrorCode.INTERNAL_ERROR : Int := -32603

/-- Code of `RpcErrorCode.INVALID_REQUEST`. -/
def RpcErrorCode.INVALID_REQUEST : Int := -32600

/-- Code of `RpcErrorCode.TRANSPORT_ERROR`. -/
def RpcErrorCode.TRANSPORT_ERROR : Int := -32099

mutual
/-- The `error` member of a response. -/
inductive RpcError where
  | mk (code : Int) (message : String) (data : Option ErrData)

/-- The `data` attached to a synthesized error: the raw non-envelope
body (`data: response.data`) or the fault code (`data: { code: error.code }`). -/
inductive ErrData where
  | rawBody (b : Body)
  | faultCode (c : Option String)

/-- `response.data` of the HTTP exchange: an object carrying a `jsonrpc`
field (envelope-shaped), a string, or anything else (including a falsy
body). -/
inductive Body where
  | obj (jsonrpc : String) (id : RpcId) (result : Option String) (error : Option RpcError)
  | text (s : String)
  | other
end

deriving instance Repr for RpcError, ErrData, Body

/-- `RpcResponse`. `result` is opaque (`any` in the source). -/
structure RpcResponse where
  jsonrpc : String
  id : RpcId
  result : Option String
  error : Option RpcError
deriving Repr

/-- `error.code` field accessor. -/
def RpcError.code : RpcError → Int
  | .mk c _ _ => c

/-- `error.message` field accessor. -/
def RpcError.message : RpcError → String
  | .mk _ m _ => m

/-- `error.data` field accessor. -/
def RpcError.data : RpcError → Option ErrData
  | .mk _ _ d => d

/-! ## Transport (`AxiosTransport`) -/

/-- Outcome of `axiosInstance.post("/", req)`: a reply (any status, since
`validateStatus` accepts all) or a rejection with an error `code` and
`message`. -/
inductive HttpOutcome where
  | reply (data : Body) (status : Nat) (statusText : String)
  | thrown (code : Option String) (message : String)
deriving Repr

/-- The error envelope `request` synthesizes when the server's body is
not a well-formed response envelope: the code depends on the status
class, the message embeds a 200-character truncation of the body text or
the status text (`"Unknown Server Error"` when that is empty), and the
raw body is attached as `data`. -/
def nonRpcResponse (req : RpcRequest) (body : Body) (status : Nat) (statusText : String) :
    RpcResponse × Bool :=
  let errorMessage :=
    match body with
    | .text s => s
    | _ => if statusText = "" then "Unknown Server Error" else statusText
  ({ jsonrpc := "2.0", id := req.id, result := none,
     error := some (.mk
       (if status ≥ 500 then RpcErrorCode.INTERNAL_ERROR else RpcErrorCode.INVALID_REQUEST)
       ("Server returned non-RPC response (" ++ toString status ++ "): "
         ++ errorMessage.take 200)
       (some (.rawBody body))) }, true)

/-- `AxiosTransport.request`, given the `isClosing` flag and the network
outcome the post would produce. Returns the resolved response and whether
a network exchange was performed. The source's `try`/`catch` turns every
rejection of the post into the transport-error envelope, so the method
never throws: the embedding is total. -/
def AxiosTransport.request (isClosing : Bool) (req : RpcRequest) (net : HttpOutcome) :
    RpcResponse × Bool :=
  if isClosing then
    ({ jsonrpc := "2.0", id := req.id, result := none,
       error := some (.mk RpcErrorCode.INTERNAL_ERROR "Transport is closing" none) }, false)
  else
    match net with
    | .reply (.obj j i res err) status statusText =>
      if j = "2.0" then ({ jsonrpc := j, id := i, result := res, error := err }, true)
      else nonRpcResponse req (.obj j i res err) status statusText
    | .reply body status statusText => nonRpcResponse req body status statusText
    | .thrown code message =>
      ({ jsonrpc := "2.0", id := req.id, result := none,
         error := some (.mk RpcErrorCode.TRANSPORT_ERROR
           ("Transport Error: " ++ message)
           (some (.faultCode code))) }, true)

/-- Whether a body passes the envelope test
`data && typeof data === "object" && data.jsonrpc === "2.0"`. -/
def isEnvelopeBody : Body → Bool
  | .obj j _ _ _ => j = "2.0"
  | _ => false

instance {ε α : Type} [DecidableEq ε] [DecidableEq α] : DecidableEq (Except ε α) := fun x y =>
  match x, y with
  | .ok a, .ok b => if h : a = b then .isTrue (by rw [h]) else .isFalse (by simp [h])
  | .error a, .error b => if h : a = b then .isTrue (by rw [h]) else .isFalse (by simp [h])
  | .ok _, .error _ => .isFalse (by simp)
  | .error _, .ok _ => .isFalse (by simp)

/-- Trace of one `connect()` call: its result (`throw lastError` is
`.error`), the number of handshake posts made, and the delays (in ms)
slept between attempts. -/
structure ConnectTrace where
  result : Except String Unit
  attempts : Nat
  delays : List Nat
deriving DecidableEq, Repr

/-- The retry loop of `AxiosTransport.connect` (`for (let i = 0; i < 3; i++)`).
`ping i` is the outcome of the ping post of attempt `i` (`none` =
resolves, `some e` = rejects with `e`); `fuel` is the number of loop
iterations left and `lastError` the accumulator. After a failure at
`i < 2` a 500ms sleep is recorded (`connect` has just set `isClosing`
to `false`, and no concurrent `close` runs in this model, so the
`!this.isClosing` conjunct holds). When the loop ends, `lastError` is
thrown. -/
def connectGo (ping : Nat → Option String) : Nat → Nat → Option String → ConnectTrace
  | i, 0, lastError => { result := .error (lastError.getD ""), attempts := i, delays := [] }
  | i, fuel + 1, lastError =>
    match ping i with
    | none => { result := .ok (), attempts := i + 1, delays := [] }
    | some e =>
      let t := connectGo ping (i + 1) fuel (some e)
      if i < 2 then { t with delays := 500 :: t.delays } else t

/-- `AxiosTransport.connect`: three attempts from `i = 0`. -/
def AxiosTransport.connect (ping : Nat → Option String) : ConnectTrace :=
  connectGo ping 0 3 none

/-- The operations of a transport that touch the `isClosing` flag. -/
inductive TransportOp where
  | connect
  | request
  | close
deriving DecidableEq, Repr

/-- Effect of each operation on `isClosing`: `connect()` begins with
`this.isClosing = false`, `request()` only reads the flag, `close()`
sets it. -/
def stepClosing (isClosing : Bool) : TransportOp → Bool
  | .connect => false
  | .request => isClosing
  | .close => true

/-- The flag after a sequence of operations. -/
def runClosing (isClosing : Bool) (ops : List TransportOp) : Bool :=
  ops.foldl stepClosing isClosing

/-! ## RPC client (`RpcClient.call`) -/

/-- The envelope `call` builds: fresh id, `jsonrpc: "2.0"`. -/
def mkReq (newId : RpcId) (method : String) (params : Option String) : RpcRequest :=
  { jsonrpc := "2.0", id := newId, method := method, params := params }

/-- `RpcClient.call`: `transport` is `null`/`undefined` or a request
function; `newId` stands for the fresh `uuidv4()`. A missing transport
short-circuits to `undefined`; a response with an error field throws
`new Error(res.error.message)`; otherwise `res.result` is returned. -/
def RpcClient.call (transport : Option (RpcRequest → RpcResponse)) (newId : RpcId)
    (method : String) (params : Option String) : Except String (Option String) :=
  match transport with
  | none => .ok none
  | some t =>
    let res := t (mkReq newId method params)
    match res.error with
    | some e => .error e.message
    | none => .ok res.result

/-! ## Helper lemmas -/

lemma runClosing_stays_true (ops : List TransportOp) (h : TransportOp.connect ∉ ops) :
    runClosing true ops = true := by
  induction ops with
  | nil => rfl
  | cons a rest ih =>
    simp only [List.mem_cons, not_or] at h
    cases a with
    | connect => exact absurd rfl h.1
    | request => exact ih h.2
    | close => exact ih h.2

/-! ## Claims -/

/-- C3: `checkDaemonAlive` resolves an absent descriptor to dead, a
non-numeric content to dead, and a numeric PID to dead exactly when the
`kill(pid, 0)` probe reports `ESRCH`; any other probe outcome (success
or, for example, a permission error) resolves to alive. -/
theorem checkDaemonAlive_resolution (s : Option Bool) (pr : ProbeResult) (p : Nat) :
    checkDaemonAlive s Obs.absent = false
    ∧ checkDaemonAlive s (Obs.present .nonNumeric pr) = false
    ∧ (checkDaemonAlive s (Obs.present (.pid p) pr) = false ↔ pr = .esrch) := by
  refine ⟨rfl, rfl, ?_⟩
  cases pr <;> simp [checkDaemonAlive]

/-- C2 as stated is false: from the initial `Unknown` state
(`isAlive = undefined`), a poll that finds the lock file present but
empty resolves `this.isAlive ?? false` to `false`, which differs from
`undefined`, so the stored state flips to dead and `onDown` fires. -/
theorem empty_lock_unknown_counterexample :
    pollStep none (Obs.present .empty .ok) = (some false, [MonEvent.onDown])
    ∧ some false ≠ (none : Option Bool) := by
  exact ⟨by decide, by decide⟩

/-- C2 amended: a poll that finds the lock file present but empty leaves
any already-determined state (alive or dead) unchanged and fires no
callback; from the initial unknown state, however, it resolves to dead,
stores that state and fires `onDown`. -/
theorem empty_lock_retains_known_state (b : Bool) (pr : ProbeResult) :
    pollStep (some b) (Obs.present .empty pr) = (some b, [])
    ∧ pollStep none (Obs.present .empty pr) = (some false, [MonEvent.onDown]) := by
  cases pr <;> cases b <;> exact ⟨by decide, by decide⟩

/-- C5: `request` with the closing flag set resolves immediately to the
internal-error envelope for the request's id and performs no network
exchange; the embedding is a total function, reflecting that the source
method converts every rejection of the underlying post into an error
envelope rather than throwing. -/
theorem request_when_closing (req : RpcRequest) (net : HttpOutcome) :
    AxiosTransport.request true req net =
      ({ jsonrpc := "2.0", id := req.id, result := none,
         error := some (.mk RpcErrorCode.INTERNAL_ERROR "Transport is closing" none) }, false) :=
  rfl

/-- C6 as stated is false: the closing flag is not one-way, because
`connect()` begins with `this.isClosing = false`. After `close()`
followed by `connect()` the flag is clear again. -/
theorem closing_flag_counterexample :
    runClosing false [TransportOp.close, TransportOp.connect] = false := by decide

/-- C6 amended: `close()` sets the closing flag and is idempotent, and
`request()` never changes it, so after a `close()` the flag stays set
across every later operation sequence that contains no `connect()`;
`connect()`, however, clears the flag at its start. -/
theorem closing_flag_behaviour (b : Bool) (ops : List TransportOp) :
    stepClosing b .close = true
    ∧ stepClosing b .request = b
    ∧ stepClosing (stepClosing b .close) .close = stepClosing b .close
    ∧ stepClosing true .connect = false
    ∧ (TransportOp.connect ∉ ops → runClosing true ops = true) :=
  ⟨rfl, rfl, rfl, rfl, fun h => runClosing_stays_true ops h⟩

/-- Witness for the amended C6 at a concrete operation sequence. -/
theorem closing_flag_behaviour_witness :
    runClosing true [TransportOp.request, TransportOp.close] = true :=
  (closing_flag_behaviour true [TransportOp.request, TransportOp.close]).2.2.2.2 (by decide)

/-- C8 as stated is false: `check` has no `catch`, so when a fired
callback rejects, the rejection becomes the result of the poll's promise
rather than being logged and swallowed. At a concrete input (unknown
state, absent lock file, a callback that rejects with `"boom"`), the
state is stored, the guard is released by the `finally`, `onDown` fires,
and the rejection propagates out of the poll. -/
theorem callback_failure_counterexample :
    checkRun ⟨none, false⟩ Obs.absent (fun _ => .error "boom")
      = (⟨some false, false⟩, [MonEvent.onDown], .error "boom") := by decide

/-- C8 amended: when a poll's callback fails, the in-flight guard is
still released (the `finally` clause) and the new state has already been
stored, so the monitor keeps polling on later ticks; but the failure is
neither caught nor logged by the monitor — the poll's promise takes the
callback's rejection as its own result (and resolves cleanly whenever no
callback fired). -/
theorem callback_failure_guard_released (s : CheckState) (o : Obs)
    (f : MonEvent → Except String Unit) (hs : s.isChecking = false) :
    (checkRun s o f).1.isChecking = false
    ∧ (∀ ev, (checkRun s o f).2.1 = [ev] → (checkRun s o f).2.2 = f ev)
    ∧ ((checkRun s o f).2.1 = [] → (checkRun s o f).2.2 = .ok ()) := by
  obtain ⟨sa, sc⟩ := s
  dsimp only at hs
  subst hs
  have hchar : checkRun ⟨sa, false⟩ o f =
      if sa ≠ some (checkDaemonAlive sa o)
      then (⟨some (checkDaemonAlive sa o), false⟩,
            [if checkDaemonAlive sa o then MonEvent.onAlive else MonEvent.onDown],
            f (if checkDaemonAlive sa o then MonEvent.onAlive else MonEvent.onDown))
      else (⟨sa, false⟩, [], .ok ()) := rfl
  rw [hchar]
  by_cases h2 : sa ≠ some (checkDaemonAlive sa o)
  · rw [if_pos h2]
    refine ⟨rfl, ?_, ?_⟩
    · intro ev he
      simp only [List.cons.injEq, and_true] at he
      dsimp only
      rw [he]
    · intro he
      simp at he
  · rw [if_neg h2]
    refine ⟨rfl, ?_, ?_⟩
    · intro ev he
      simp at he
    · intro _
      rfl

/-- Witness for the amended C8 at a concrete failing callback. -/
theorem callback_failure_guard_released_witness :
    (checkRun ⟨some true, false⟩ Obs.absent (fun _ => Except.error "x")).2.2
      = Except.error "x" :=
  (callback_failure_guard_released ⟨some true, false⟩ Obs.absent
    (fun _ => Except.error "x") rfl).2.1 MonEvent.onDown (by decide)

/-- C9: `RpcClient.call` resolves to an absent result for an absent
transport; with a transport it raises exactly when the response carries
an error field, the raised error carrying the daemon's message
unmodified, and otherwise returns the response's result payload. -/
theorem rpcCall_spec (t : RpcRequest → RpcResponse) (i : RpcId) (m : String)
    (p : Option String) :
    RpcClient.call none i m p = .ok none
    ∧ (∀ e, (t (mkReq i m p)).error = some e →
        RpcClient.call (some t) i m p = .error e.message)
    ∧ ((t (mkReq i m p)).error = none →
        RpcClient.call (some t) i m p = .ok (t (mkReq i m p)).result)
    ∧ ((∃ msg, RpcClient.call (some t) i m p = .error msg)
        ↔ ((t (mkReq i m p)).error).isSome) := by
  refine ⟨rfl, ?_, ?_, ?_⟩
  · intro e he
    simp [RpcClient.call, he]
  · intro he
    simp [RpcClient.call, he]
  · cases h : (t (mkReq i m p)).error with
    | some e => simp [RpcClient.call, h]
    | none => simp [RpcClient.call, h]

/-- Witness for C9: a transport answering with a result payload makes
`call` return that payload. -/
theorem rpcCall_spec_witness :
    RpcClient.call (some fun _ => ⟨"2.0", RpcId.num 1, some "pong", none⟩)
      (RpcId.num 1) "ping" none = .ok (some "pong") :=
  (rpcCall_spec (fun _ => ⟨"2.0", RpcId.num 1, some "pong", none⟩)
    (RpcId.num 1) "ping" none).2.2.1 rfl

/-- C10 as stated is false for the verbatim branch: a body that already
is a well-formed envelope is returned as-is, with whatever id the server
sent, which need not equal the request's id. -/
theorem request_id_counterexample :
    (AxiosTransport.request false ⟨"2.0", RpcId.num 1, "ping", none⟩
      (.reply (.obj "2.0" (RpcId.num 999) none none) 200 "OK")).1.id = RpcId.num 999
    ∧ RpcId.num 999 ≠ RpcId.num 1 :=
  ⟨rfl, by decide⟩

lemma request_reply_obj (req : RpcRequest) (j : String) (i : RpcId) (res : Option String)
    (err : Option RpcError) (st : Nat) (stx : String) :
    AxiosTransport.request false req (.reply (.obj j i res err) st stx)
      = if j = "2.0" then ({ jsonrpc := j, id := i, result := res, error := err }, true)
        else nonRpcResponse req (.obj j i res err) st stx := rfl

/-- C10 amended: every locally synthesized response — for the
closed-transport case, for a body failing the envelope test, and for a
connection-level fault — carries `jsonrpc "2.0"` and the id of the
request it answers; a body passing the envelope test is returned
verbatim, its id taken from the server's reply. -/
theorem request_envelope_invariants (req : RpcRequest) :
    (∀ net, (AxiosTransport.request true req net).1.jsonrpc = "2.0"
      ∧ (AxiosTransport.request true req net).1.id = req.id)
    ∧ (∀ c msg, (AxiosTransport.request false req (.thrown c msg)).1.jsonrpc = "2.0"
      ∧ (AxiosTransport.request false req (.thrown c msg)).1.id = req.id)
    ∧ (∀ body st stx, isEnvelopeBody body = false →
        (AxiosTransport.request false req (.reply body st stx)).1.jsonrpc = "2.0"
        ∧ (AxiosTransport.request false req (.reply body st stx)).1.id = req.id)
    ∧ (∀ i res err st stx,
        AxiosTransport.request false req (.reply (.obj "2.0" i res err) st stx)
          = ({ jsonrpc := "2.0", id := i, result := res, error := err }, true)) := by
  refine ⟨fun net => ⟨rfl, rfl⟩, fun c msg => ⟨rfl, rfl⟩, ?_,
    fun i res err st stx => by rw [request_reply_obj, if_pos rfl]⟩
  intro body st stx h
  cases body with
  | obj j i res err =>
    simp only [isEnvelopeBody, decide_eq_false_iff_not] at h
    rw [request_reply_obj, if_neg h]
    exact ⟨rfl, rfl⟩
  | text s => exact ⟨rfl, rfl⟩
  | other => exact ⟨rfl, rfl⟩

/-- Witness for the amended C10 at a concrete non-envelope body. -/
theorem request_envelope_invariants_witness :
    (AxiosTransport.request false ⟨"2.0", RpcId.num 5, "m", none⟩
      (.reply Body.other 404 "Not Found")).1.id = RpcId.num 5 :=
  ((request_envelope_invariants ⟨"2.0", RpcId.num 5, "m", none⟩).2.2.1
    Body.other 404 "Not Found" rfl).2

lemma pollStep_char (s : Option Bool) (o : Obs) :
    pollStep s o =
      if s ≠ some (checkDaemonAlive s o)
      then (some (checkDaemonAlive s o), [evOf (checkDaemonAlive s o)])
      else (s, []) := rfl

lemma pollStep_count (b : Bool) (s : Option Bool) (o : Obs) :
    ((pollStep s o).2).count (evOf b) =
      if s ≠ some b ∧ (pollStep s o).1 = some b then 1 else 0 := by
  rw [pollStep_char]
  by_cases h : s = some (checkDaemonAlive s o)
  · rw [if_neg (by simpa using h)]
    have : ¬ (s ≠ some b ∧ s = some b) := fun hc => hc.1 hc.2
    simp [this]
  · rw [if_pos h]
    by_cases hb : checkDaemonAlive s o = b
    · subst hb
      simp [h]
    · have h1 : evOf (checkDaemonAlive s o) ≠ evOf b := by
        cases hcb : checkDaemonAlive s o <;> cases b <;> simp_all [evOf]
      simp [List.count_cons, Ne.symm h1, hb]

lemma pollRun_count (b : Bool) (obs : List Obs) : ∀ (s : Option Bool),
    ((pollRun s obs).2).count (evOf b) = countEdges b s (stateTrace s obs) := by
  induction obs with
  | nil =>
    intro s
    simp [pollRun, stateTrace, countEdges]
  | cons o rest ih =>
    intro s
    show ((pollStep s o).2 ++ (pollRun (pollStep s o).1 rest).2).count (evOf b)
      = countEdges b s ((pollStep s o).1 :: stateTrace (pollStep s o).1 rest)
    rw [List.count_append, countEdges, pollStep_count b s o, ih]

/-- C1: over any sequence of completed polls starting from the initial
unknown state, `onAlive` fires exactly once per transition of the stored
state into alive and `onDown` exactly once per transition into dead
(first transitions out of unknown included), and a completed poll whose
resolved observation equals the stored state changes nothing and fires
no callback. -/
theorem monitor_edge_triggered (obs : List Obs) :
    ((pollRun none obs).2).count MonEvent.onAlive
      = countEdges true none (stateTrace none obs)
    ∧ ((pollRun none obs).2).count MonEvent.onDown
      = countEdges false none (stateTrace none obs)
    ∧ ∀ (s : Option Bool) (o : Obs),
        some (checkDaemonAlive s o) = s → pollStep s o = (s, []) :=
  ⟨pollRun_count true obs none, pollRun_count false obs none,
   fun s o h => by rw [pollStep_char, if_neg (not_not_intro h.symm)]⟩

/-- Witness for C1's no-callback clause: a poll observing a live PID
while the stored state is already alive is a no-op. -/
theorem monitor_edge_triggered_witness :
    pollStep (some true) (Obs.present (.pid 5) .ok) = (some true, []) :=
  (monitor_edge_triggered []).2.2 (some true) (Obs.present (.pid 5) .ok) rfl

lemma pollStep_events_length (s : Option Bool) (o : Obs) :
    (pollStep s o).2.length ≤ 1 := by
  rw [pollStep_char]
  by_cases h : s ≠ some (checkDaemonAlive s o)
  · rw [if_pos h]; simp
  · rw [if_neg h]; simp

lemma monRun_events_le (acts : List MonAction) : ∀ (s : MonState),
    (monRun s acts).2.length ≤ acts.count MonAction.finish := by
  induction acts with
  | nil =>
    intro s
    simp [monRun]
  | cons a rest ih =>
    intro s
    show ((monStep s a).2 ++ (monRun (monStep s a).1 rest).2).length
      ≤ (a :: rest).count MonAction.finish
    rw [List.length_append, List.count_cons]
    have hrest := ih (monStep s a).1
    have hstep : (monStep s a).2.length ≤ if (a == MonAction.finish) = true then 1 else 0 := by
      cases a with
      | tick o =>
        by_cases h : s.inFlight.isSome
        · simp [monStep, h]
        · simp [monStep, h]
      | finish =>
        cases hf : s.inFlight with
        | none => simp [monStep, hf]
        | some o =>
          have := pollStep_events_length s.isAlive o
          simp only [monStep, hf]
          simpa using this
    omega

/-- C7: a timer tick that fires while a poll is in flight is a no-op —
the state is untouched and no callback fires — and consequently, over
any interleaving of ticks and poll completions, the number of callback
invocations is bounded by the number of completed polls, not the number
of timer firings. -/
theorem overlapping_tick_noop :
    (∀ (s : MonState) (o : Obs), s.inFlight.isSome → monStep s (MonAction.tick o) = (s, []))
    ∧ ∀ (s : MonState) (acts : List MonAction),
        (monRun s acts).2.length ≤ acts.count MonAction.finish :=
  ⟨fun s o h => by simp [monStep, h], fun s acts => monRun_events_le acts s⟩

/-- Witness for C7 at a concrete in-flight state. -/
theorem overlapping_tick_noop_witness :
    monStep ⟨none, some Obs.absent⟩ (MonAction.tick (Obs.present .empty .ok))
      = (⟨none, some Obs.absent⟩, []) :=
  overlapping_tick_noop.1 ⟨none, some Obs.absent⟩ (Obs.present .empty .ok) rfl

/-- C4: `connect()` makes at most 3 handshake attempts, stops at the
first success (every earlier attempt having failed), sleeps a fixed
500ms between consecutive attempts, and after three failures propagates
the error of the third attempt. -/
theorem connect_retry_spec (ping : Nat → Option String) :
    (AxiosTransport.connect ping).attempts ≤ 3
    ∧ (AxiosTransport.connect ping).delays
        = List.replicate ((AxiosTransport.connect ping).attempts - 1) 500
    ∧ ((AxiosTransport.connect ping).result = .ok () →
        ping ((AxiosTransport.connect ping).attempts - 1) = none
        ∧ ∀ j, j < (AxiosTransport.connect ping).attempts - 1 → (ping j).isSome)
    ∧ (∀ e0 e1 e2, ping 0 = some e0 → ping 1 = some e1 → ping 2 = some e2 →
        (AxiosTransport.connect ping).result = .error e2
        ∧ (AxiosTransport.connect ping).attempts = 3) := by
  cases h0 : ping 0 with
  | none =>
    have hc : AxiosTransport.connect ping
        = { result := .ok (), attempts := 1, delays := [] } := by
      simp [AxiosTransport.connect, connectGo, h0]
    rw [hc]
    refine ⟨by norm_num, rfl, fun _ => ⟨h0, ?_⟩, ?_⟩
    · intro j hj
      exact absurd (show j < 0 from hj) (by omega)
    · intro a0 a1 a2 g0 g1 g2
      exact Option.noConfusion g0
  | some e0 =>
    cases h1 : ping 1 with
    | none =>
      have hc : AxiosTransport.connect ping
          = { result := .ok (), attempts := 2, delays := [500] } := by
        simp [AxiosTransport.connect, connectGo, h0, h1]
      rw [hc]
      refine ⟨by norm_num, rfl, fun _ => ⟨h1, ?_⟩, ?_⟩
      · intro j hj
        have hj' : j < 1 := hj
        have hj0 : j = 0 := by omega
        subst hj0
        simp [h0]
      · intro a0 a1 a2 g0 g1 g2
        exact Option.noConfusion g1
    | some e1 =>
      cases h2 : ping 2 with
      | none =>
        have hc : AxiosTransport.connect ping
            = { result := .ok (), attempts := 3, delays := [500, 500] } := by
          simp [AxiosTransport.connect, connectGo, h0, h1, h2]
        rw [hc]
        refine ⟨by norm_num, rfl, fun _ => ⟨h2, ?_⟩, ?_⟩
        · intro j hj
          have hj' : j < 2 := hj
          have hj01 : j = 0 ∨ j = 1 := by omega
          rcases hj01 with hj0 | hj1
          · subst hj0; simp [h0]
          · subst hj1; simp [h1]
        · intro a0 a1 a2 g0 g1 g2
          exact Option.noConfusion g2
      | some e2 =>
        have hc : AxiosTransport.connect ping
            = { result := .error e2, attempts := 3, delays := [500, 500] } := by
          simp [AxiosTransport.connect, connectGo, h0, h1, h2]
        rw [hc]
        refine ⟨by norm_num, rfl, ?_, ?_⟩
        · intro hok
          exact absurd hok (by simp)
        · intro a0 a1 a2 g0 g1 g2
          injection g2 with hh
          subst hh
          exact ⟨rfl, rfl⟩

/-- Witness for C4: with every attempt rejecting with `"boom"`,
`connect()` raises `"boom"` after exactly three attempts. -/
theorem connect_retry_spec_witness :
    (AxiosTransport.connect fun _ => some "boom").result = Except.error "boom"
    ∧ (AxiosTransport.connect fun _ => some "boom").attempts = 3 :=
  (connect_retry_spec fun _ => some "boom").2.2.2 "boom" "boom" "boom" rfl rfl rfl
